import Mathlib

/-!
Shallow embedding of the md2conf Confluence API client
(`md2conf/api.py`, `md2conf/api_mappers.py`, `md2conf/environment.py`).

Conventions of the embedding:
* Python strings are Lean `String`; Python's string comparison (by Unicode
  code point, lexicographic) is embedded as lexicographic order on the
  underlying `List Char` (`strLt`, `strLe` below).
* Python `set` differences followed by `list(...).sort()` are embedded as
  `List.dedup`/`List.filter` followed by `List.insertionSort` (a stable
  sort, as Python's `list.sort` is).
* Python `dict` comprehensions such as `{p.key: p for p in ...}` (later
  entries win on duplicate keys) are embedded by `lookupLast`.
* Network effects are made explicit: functions return the list of issued
  requests (URL strings and typed request bodies) instead of performing
  I/O, and responses are supplied by explicit server oracles.
* Version counters are `Nat` (the source uses non-negative ints).
-/

/-- Lexicographic strict order on strings by code point, as Python compares
strings.  Defined on the underlying character lists so that it is
kernel-computable. -/
def strLt (a b : String) : Prop := a.data < b.data

/-- Lexicographic (non-strict) order on strings by code point. -/
def strLe (a b : String) : Prop := a.data ≤ b.data

instance : DecidableRel strLt := fun a b => by unfold strLt; infer_instance

instance : DecidableRel strLe := fun a b => by unfold strLe; infer_instance

theorem strLe_refl (a : String) : strLe a a := le_refl a.data

theorem strLe_trans {a b c : String} (h1 : strLe a b) (h2 : strLe b c) : strLe a c :=
  le_trans h1 h2

theorem strLe_antisymm {a b : String} (h1 : strLe a b) (h2 : strLe b a) : a = b :=
  String.ext (le_antisymm h1 h2)

theorem strLe_total (a b : String) : strLe a b ∨ strLe b a := le_total a.data b.data

instance : IsTrans String strLe := ⟨fun _ _ _ => strLe_trans⟩

instance : IsAntisymm String strLe := ⟨fun _ _ => strLe_antisymm⟩

instance : IsTotal String strLe := ⟨strLe_total⟩

instance : IsRefl String strLe := ⟨strLe_refl⟩

/-- Embeds the enum `ConfluenceVersion` of `api.py`: the REST API generation
a request corresponds to. -/
inductive ConfluenceVersion where
  | VERSION_1
  | VERSION_2
deriving DecidableEq

/-- Embeds the `.value` payload of the `ConfluenceVersion` enum members:
the URL path segment of each API generation. -/
def ConfluenceVersion.value : ConfluenceVersion → String
  | .VERSION_1 => "rest/api"
  | .VERSION_2 => "api/v2"

/-- Embeds `ConfluenceSession._detect_api_version` of `api.py`:
selects the REST API generation from the configured deployment type. -/
def detect_api_version (deployment_type : Option String) : ConfluenceVersion :=
  if deployment_type = some "datacenter" ∨ deployment_type = some "server" then
    ConfluenceVersion.VERSION_1
  else if deployment_type = some "cloud" then
    ConfluenceVersion.VERSION_2
  else
    ConfluenceVersion.VERSION_2

/-- The session state relevant to URL construction: the resolved API root
(`self.api_url`), the site domain (`self.site.domain`) and the resolved API
generation (`self.api_version`). -/
structure ConfluenceSessionState where
  api_url : String
  domain : String
  api_version : ConfluenceVersion

/-- Embeds `ConfluenceSession._build_url` of `api.py` (query-less form):
`f"{self.api_url}{version.value}{path}"`. -/
def build_url (s : ConfluenceSessionState) (version : ConfluenceVersion) (path : String) : String :=
  s.api_url ++ version.value ++ path

/-- Embeds the dataclass `ConfluenceLabel` of `api.py` (fields `name` and
`prefix`; the latter is called `pfx` here because of Lean keyword clashes).
The dataclass is declared with `order=True`, i.e. compared as the tuple
(name, prefix). -/
structure ConfluenceLabel where
  name : String
  pfx : String
deriving DecidableEq

/-- The comparison order generated by `order=True` on `ConfluenceLabel`:
lexicographic on the field tuple (name, prefix). -/
def labelLe (a b : ConfluenceLabel) : Prop :=
  strLt a.name b.name ∨ (a.name = b.name ∧ strLe a.pfx b.pfx)

instance : DecidableRel labelLe := fun a b => by unfold labelLe; infer_instance

theorem labelLe_trans {a b c : ConfluenceLabel} (h1 : labelLe a b) (h2 : labelLe b c) :
    labelLe a c := by
  rcases h1 with h1 | ⟨e1, l1⟩
  · rcases h2 with h2 | ⟨e2, _⟩
    · exact Or.inl (lt_trans h1 h2)
    · exact Or.inl (e2 ▸ h1)
  · rcases h2 with h2 | ⟨e2, l2⟩
    · exact Or.inl (e1 ▸ h2)
    · exact Or.inr ⟨e1.trans e2, strLe_trans l1 l2⟩

theorem labelLe_antisymm {a b : ConfluenceLabel} (h1 : labelLe a b) (h2 : labelLe b a) :
    a = b := by
  rcases h1 with h1 | ⟨e1, l1⟩
  · rcases h2 with h2 | ⟨e2, _⟩
    · exact absurd h2 (lt_asymm h1)
    · exact absurd h1 (by rw [e2]; exact lt_irrefl _)
  · rcases h2 with h2 | ⟨e2, l2⟩
    · exact absurd h2 (by rw [e1]; exact lt_irrefl _)
    · cases a; cases b
      simp only at e1 l1 l2
      simp [e1, strLe_antisymm l1 l2]

theorem labelLe_total (a b : ConfluenceLabel) : labelLe a b ∨ labelLe b a := by
  rcases lt_trichotomy a.name.data b.name.data with h | h | h
  · exact Or.inl (Or.inl h)
  · have e : a.name = b.name := String.ext h
    rcases strLe_total a.pfx b.pfx with h' | h'
    · exact Or.inl (Or.inr ⟨e, h'⟩)
    · exact Or.inr (Or.inr ⟨e.symm, h'⟩)
  · exact Or.inr (Or.inl h)

instance : IsTrans ConfluenceLabel labelLe := ⟨fun _ _ _ => labelLe_trans⟩

instance : IsAntisymm ConfluenceLabel labelLe := ⟨fun _ _ => labelLe_antisymm⟩

instance : IsTotal ConfluenceLabel labelLe := ⟨labelLe_total⟩

/-- Embeds `ConfluenceSession.update_labels` of `api.py` as a pure function:
given the desired labels (`labels` argument) and the remote labels (what
`self.get_labels(page_id)` returned, already projected to (name, prefix)),
computes the list of labels passed to `add_labels` and the list of labels
passed to `remove_labels`, in the order the source applies them.  The source
computes `set(labels) - set(old)` and `set(old) - set(labels)` and sorts each
before use; removals are skipped when `keep_existing` is set. -/
def update_labels (desired remote : List ConfluenceLabel) (keep_existing : Bool) :
    List ConfluenceLabel × List ConfluenceLabel :=
  let add_labels := List.insertionSort labelLe
    (desired.dedup.filter (fun l => decide (l ∉ remote)))
  let remove_labels := List.insertionSort labelLe
    (remote.dedup.filter (fun l => decide (l ∉ desired)))
  (add_labels, if keep_existing then [] else remove_labels)

/-- The remote label set after the service has processed the `add_labels`
POST (labels added) and the `remove_labels` DELETEs (labels removed). -/
def apply_label_ops (remote add remove : List ConfluenceLabel) : List ConfluenceLabel :=
  (remote ++ add).filter (fun l => decide (l ∉ remove))

/-- Embeds lookup in a Python dict built by a comprehension such as
`{p.key: p for p in items}`: on duplicate keys the later entry wins, so the
lookup returns the last element of the list whose key matches. -/
def lookupLast (keyOf : α → String) : List α → String → Option α
  | [], _ => none
  | x :: xs, k =>
    match lookupLast keyOf xs k with
    | some r => some r
    | none => if keyOf x = k then some x else none

theorem lookupLast_eq_none_iff (keyOf : α → String) (l : List α) (k : String) :
    lookupLast keyOf l k = none ↔ k ∉ l.map keyOf := by
  induction l with
  | nil => simp [lookupLast]
  | cons x xs ih =>
    cases h : lookupLast keyOf xs k with
    | some r =>
      have hmem : k ∈ xs.map keyOf := by
        by_contra hk
        rw [ih.mpr hk] at h
        exact Option.noConfusion h
      simp [lookupLast, h, List.mem_cons, hmem]
    | none =>
      have hxs : k ∉ xs.map keyOf := (ih).mp h
      by_cases hx : keyOf x = k
      · simp [lookupLast, h, hx, List.mem_cons]
      · simp [lookupLast, h, hx, List.mem_cons, hxs]
        exact fun e => hx e.symm

theorem lookupLast_key (keyOf : α → String) (l : List α) (k : String) (p : α)
    (h : lookupLast keyOf l k = some p) : keyOf p = k := by
  induction l with
  | nil => simp [lookupLast] at h
  | cons x xs ih =>
    rw [lookupLast] at h
    cases h' : lookupLast keyOf xs k with
    | some r =>
      rw [h'] at h
      simp only [Option.some.injEq] at h
      exact ih (h.symm ▸ h')
    | none =>
      rw [h'] at h
      by_cases hx : keyOf x = k
      · simp only [hx, if_true, Option.some.injEq] at h
        rw [← h]; exact hx
      · simp [hx] at h

theorem lookupLast_mem (keyOf : α → String) (l : List α) (k : String) (p : α)
    (h : lookupLast keyOf l k = some p) : p ∈ l := by
  induction l with
  | nil => simp [lookupLast] at h
  | cons x xs ih =>
    rw [lookupLast] at h
    cases h' : lookupLast keyOf xs k with
    | some r =>
      rw [h'] at h
      simp only [Option.some.injEq] at h
      exact List.mem_cons_of_mem x (ih (h.symm ▸ h'))
    | none =>
      rw [h'] at h
      by_cases hx : keyOf x = k
      · simp only [hx, if_true] at h
        simp only [Option.some.injEq] at h
        rw [← h]; exact List.mem_cons_self x xs
      · simp [hx] at h

theorem lookupLast_isSome_iff (keyOf : α → String) (l : List α) (k : String) :
    (∃ p, lookupLast keyOf l k = some p) ↔ k ∈ l.map keyOf := by
  constructor
  · rintro ⟨p, hp⟩
    by_contra hk
    rw [← lookupLast_eq_none_iff keyOf l k] at hk
    rw [hk] at hp
    exact Option.noConfusion hp
  · intro hk
    cases h : lookupLast keyOf l k with
    | some p => exact ⟨p, rfl⟩
    | none => exact absurd ((lookupLast_eq_none_iff keyOf l k).mp h) (by simp [hk])

theorem lookupLast_of_nodup_mem (keyOf : α → String) (l : List α) (p : α)
    (hnd : (l.map keyOf).Nodup) (hmem : p ∈ l) :
    lookupLast keyOf l (keyOf p) = some p := by
  induction l with
  | nil => simp at hmem
  | cons x xs ih =>
    simp only [List.map_cons, List.nodup_cons] at hnd
    rcases List.mem_cons.mp hmem with rfl | hmem'
    · have hnone : lookupLast keyOf xs (keyOf p) = none :=
        (lookupLast_eq_none_iff keyOf xs (keyOf p)).mpr hnd.1
      simp [lookupLast, hnone]
    · have := ih hnd.2 hmem'
      simp [lookupLast, this]

theorem lookupLast_perm (keyOf : α → String) {l1 l2 : List α} (hperm : l1.Perm l2)
    (hnd : (l1.map keyOf).Nodup) (k : String) :
    lookupLast keyOf l1 k = lookupLast keyOf l2 k := by
  have hnd2 : (l2.map keyOf).Nodup := ((hperm.map keyOf).nodup_iff).mp hnd
  cases h : lookupLast keyOf l1 k with
  | some p =>
    have hk := lookupLast_key keyOf l1 k p h
    have hm := lookupLast_mem keyOf l1 k p h
    rw [← hk]
    exact (lookupLast_of_nodup_mem keyOf l2 p hnd2 (hperm.mem_iff.mp hm)).symm
  | none =>
    have := (lookupLast_eq_none_iff keyOf l1 k).mp h
    have h2 : k ∉ l2.map keyOf := fun hm =>
      this ((hperm.map keyOf).mem_iff.mpr hm)
    exact ((lookupLast_eq_none_iff keyOf l2 k).mpr h2).symm

/-- Embeds the dataclass `ConfluenceContentVersion` of `api.py`. -/
structure ConfluenceContentVersion where
  number : Nat
  minorEdit : Bool := false
deriving DecidableEq

/-- Embeds the dataclass `ConfluenceContentProperty` of `api.py`.  The JSON
payload type of the `value` field is abstracted into a type parameter `V`
with decidable equality: the client only ever compares values with `==`. -/
structure ConfluenceContentProperty (V : Type) where
  key : String
  value : V
deriving DecidableEq

/-- Embeds the dataclass `ConfluenceIdentifiedContentProperty` of `api.py`
(a content property together with its version and service-assigned id). -/
structure ConfluenceIdentifiedContentProperty (V : Type) where
  key : String
  value : V
  version : ConfluenceContentVersion
  id : String
deriving DecidableEq

/-- One mutating request issued by
`ConfluenceSession.update_content_properties_for_page`:
`add_content_property_to_page`, `remove_content_property_from_page`
(addressed by property id), or `update_content_property_for_page`
(property id, version number to assign, new property data). -/
inductive PropertyOp (V : Type) where
  | add (p : ConfluenceContentProperty V)
  | remove (id : String)
  | update (id : String) (version : Nat) (p : ConfluenceContentProperty V)
deriving DecidableEq

/-- Sorted list of keys to add: embeds `add_props = list(new_props - old_props);
add_props.sort()` of `update_content_properties_for_page`. -/
def prop_add_keys [DecidableEq V] (remote : List (ConfluenceIdentifiedContentProperty V))
    (properties : List (ConfluenceContentProperty V)) : List String :=
  List.insertionSort strLe
    ((properties.map (fun p => p.key)).dedup.filter
      (fun k => decide (k ∉ remote.map (fun p => p.key))))

/-- Sorted list of keys to remove: embeds `remove_props = list(old_props -
new_props); remove_props.sort()`. -/
def prop_remove_keys [DecidableEq V] (remote : List (ConfluenceIdentifiedContentProperty V))
    (properties : List (ConfluenceContentProperty V)) : List String :=
  List.insertionSort strLe
    ((remote.map (fun p => p.key)).dedup.filter
      (fun k => decide (k ∉ properties.map (fun p => p.key))))

/-- Sorted list of keys in both sets: embeds `update_props = list(old_props &
new_props); update_props.sort()`. -/
def prop_update_keys [DecidableEq V] (remote : List (ConfluenceIdentifiedContentProperty V))
    (properties : List (ConfluenceContentProperty V)) : List String :=
  List.insertionSort strLe
    ((remote.map (fun p => p.key)).dedup.filter
      (fun k => decide (k ∈ properties.map (fun p => p.key))))

/-- Embeds `ConfluenceSession.update_content_properties_for_page` of `api.py`
as a pure function from the remote properties (what
`get_content_properties_for_page` returned) and the desired properties to
the list of mutating requests it issues, in order: sorted adds, then sorted
removals (unless `keep_existing`), then sorted updates restricted to keys
whose value differs, each update carrying the remote version number plus 1. -/
def update_content_properties_for_page [DecidableEq V]
    (remote : List (ConfluenceIdentifiedContentProperty V))
    (properties : List (ConfluenceContentProperty V))
    (keep_existing : Bool) : List (PropertyOp V) :=
  let addOps := (prop_add_keys remote properties).filterMap
    (fun k => (lookupLast (fun p => p.key) properties k).map PropertyOp.add)
  let removeOps := if keep_existing then [] else
    (prop_remove_keys remote properties).filterMap
      (fun k => (lookupLast (fun p => p.key) remote k).map (fun p => PropertyOp.remove p.id))
  let updateOps := (prop_update_keys remote properties).filterMap
    (fun k =>
      match lookupLast (fun p => p.key) remote k, lookupLast (fun p => p.key) properties k with
      | some old_prop, some new_prop =>
        if old_prop.value = new_prop.value then none
        else some (PropertyOp.update old_prop.id (old_prop.version.number + 1) new_prop)
      | _, _ => none)
  addOps ++ removeOps ++ updateOps

/-- One page of a REST API v1 paginated response: the `results` array and the
reported `size` field (`data.get("size", 0)`). -/
structure V1ResultPage (α : Type) where
  results : List α
  size : Nat
deriving DecidableEq

/-- The fixed v1 page size of `ConfluenceSession._fetch_v1`: `limit = 200`. -/
def v1_limit : Nat := 200

/-- Loop body of `ConfluenceSession._fetch_v1` of `api.py`.  `server start`
is the response to the GET with query parameters `start` and `limit`.
Returns the accumulated `results` arrays together with the list of
`(start, limit)` query-parameter pairs issued, in order.  The `while True`
loop is embedded with a fuel argument; every claim is stated for sufficient
fuel. -/
def fetch_v1_go (server : Nat → V1ResultPage α) : Nat → Nat → List α × List (Nat × Nat)
  | 0, _ => ([], [])
  | fuel + 1, start =>
    let page := server start
    if page.size < v1_limit then
      (page.results, [(start, v1_limit)])
    else
      let rest := fetch_v1_go server fuel (start + v1_limit)
      (page.results ++ rest.1, (start, v1_limit) :: rest.2)

/-- Embeds `ConfluenceSession._fetch_v1`: the loop starts at `start = 0`. -/
def fetch_v1 (server : Nat → V1ResultPage α) (fuel : Nat) : List α × List (Nat × Nat) :=
  fetch_v1_go server fuel 0

/-- One page of a REST API v2 paginated response: the `results` array and
the link block's `next` field, where the empty string embeds an absent link
(the source reads `links.get("next", "")` and tests its truthiness). -/
structure V2ResultPage (α : Type) where
  results : List α
  next : String
deriving DecidableEq

/-- Embeds `url = f"https://{self.site.domain}{link}"` of
`ConfluenceSession._fetch_v2`: resolves a `next` link against the host. -/
def resolve_next_link (domain link : String) : String :=
  "https://" ++ domain ++ link

/-- Loop body of `ConfluenceSession._fetch_v2` of `api.py`.  `server url` is
the response to the GET of `url`.  Returns the accumulated `results` arrays
together with the list of URLs fetched, in order. -/
def fetch_v2_go (server : String → V2ResultPage α) (domain : String) :
    Nat → String → List α × List String
  | 0, _ => ([], [])
  | fuel + 1, url =>
    let page := server url
    if page.next = "" then
      (page.results, [url])
    else
      let rest := fetch_v2_go server domain fuel (resolve_next_link domain page.next)
      (page.results ++ rest.1, url :: rest.2)

/-- Embeds `ConfluenceSession._fetch_v2`: the first URL is built from the
v2 API prefix and the endpoint path. -/
def fetch_v2 (s : ConfluenceSessionState) (server : String → V2ResultPage α)
    (path : String) (fuel : Nat) : List α × List String :=
  fetch_v2_go server s.domain fuel (build_url s ConfluenceVersion.VERSION_2 path)

/-- The nested `space` object of a v1 page response, as far as the mappers
read it: `space.id`. -/
structure V1SpaceObject where
  id : String
deriving DecidableEq

/-- One element of the `ancestors` array of a v1 page response, as far as
the mappers read it: its `id`. -/
structure V1Ancestor where
  id : String
deriving DecidableEq

/-- The nested `version` object of a v1 page response: `version.number`. -/
structure V1VersionObject where
  number : Nat
deriving DecidableEq

/-- A v1 page response as read by `map_page_properties_v1_to_domain` and
`map_page_v1_to_domain` of `api_mappers.py`.  Fields that the mappers read
with `.get(..., default)` are `Option`s (`none` embeds an absent key);
`id`, `title` and `status` are accessed unconditionally.  The date fields
(`createdDate`/`created`, parsed with a fallback to the current wall-clock
time) are impure and outside this embedding. -/
structure V1PageResponse where
  id : String
  title : String
  status : String
  space : Option V1SpaceObject
  ancestors : List V1Ancestor
  version : Option V1VersionObject
  body_storage_value : Option String
  body_storage_representation : Option String
  history_createdBy_accountId : Option String
deriving DecidableEq

/-- Embeds the domain dataclass `ConfluencePageProperties` of `api.py`
(without the impure `createdAt` timestamp). -/
structure ConfluencePageProperties where
  id : String
  status : String
  title : String
  spaceId : String
  parentId : Option String
  parentType : Option String
  position : Option Int
  authorId : String
  ownerId : String
  lastOwnerId : Option String
  version : ConfluenceContentVersion
deriving DecidableEq

/-- Embeds the domain dataclass `ConfluencePageStorage` of `api.py`. -/
structure ConfluencePageStorage where
  representation : String
  value : String
deriving DecidableEq

/-- Embeds the domain dataclass `ConfluencePageBody` of `api.py`. -/
structure ConfluencePageBody where
  storage : ConfluencePageStorage
deriving DecidableEq

/-- Embeds the domain dataclass `ConfluencePage` of `api.py`. -/
structure ConfluencePage extends ConfluencePageProperties where
  body : ConfluencePageBody
deriving DecidableEq

/-- Embeds `map_page_properties_v1_to_domain` of `api_mappers.py`.  Returns
`none` exactly where the source raises `KeyError`: on `space_dict["id"]`
when the response has no `space` object.  `parentId` is the id of the last
element of `ancestors` (None for an empty list), the version number
defaults to 1 when absent, and the author account id defaults to
"unknown". -/
def map_page_properties_v1_to_domain (r : V1PageResponse) : Option ConfluencePageProperties :=
  match r.space with
  | none => none
  | some space_dict =>
    let author_id := r.history_createdBy_accountId.getD "unknown"
    some
      { id := r.id
        status := r.status
        title := r.title
        spaceId := space_dict.id
        parentId := (r.ancestors.getLast?).map (fun a => a.id)
        parentType := none
        position := none
        authorId := author_id
        ownerId := author_id
        lastOwnerId := none
        version := { number := (r.version.map (fun v => v.number)).getD 1 } }

/-- Embeds `map_page_v1_to_domain` of `api_mappers.py`: like the properties
mapper but additionally flattening `body.storage` (value defaulting to ""
and representation defaulting to "storage"). -/
def map_page_v1_to_domain (r : V1PageResponse) : Option ConfluencePage :=
  match map_page_properties_v1_to_domain r with
  | none => none
  | some props =>
    some
      { toConfluencePageProperties := props
        body :=
          { storage :=
            { representation := r.body_storage_representation.getD "storage"
              value := r.body_storage_value.getD "" } } }

/-- Embeds the dataclass `ConfluenceUpdatePageRequest` of `api.py`. -/
structure ConfluenceUpdatePageRequest where
  id : String
  status : String
  title : String
  body : ConfluencePageBody
  version : ConfluenceContentVersion
deriving DecidableEq

/-- The request body both `update_page` branches construct before
dispatching: status "current", storage-format body, and a
`ConfluenceContentVersion(number=version, minorEdit=True)` built from the
`version` argument. -/
def update_page_request (page_id content title : String) (version : Nat) :
    ConfluenceUpdatePageRequest :=
  { id := page_id
    status := "current"
    title := title
    body := { storage := { representation := "storage", value := content } }
    version := { number := version, minorEdit := true } }

/-- The v1 wire body produced by `map_update_page_to_v1` of
`api_mappers.py`: flattened fields of the update request plus the space key
and the fixed `type: "page"`. -/
structure V1UpdatePageBody where
  id : String
  type : String
  title : String
  space_key : String
  body_storage_value : String
  body_storage_representation : String
  version_number : Nat
  version_minorEdit : Bool
  status : String
deriving DecidableEq

/-- Embeds `map_update_page_to_v1` of `api_mappers.py`. -/
def map_update_page_to_v1 (page_id : String) (request : ConfluenceUpdatePageRequest)
    (space_key : String) : V1UpdatePageBody :=
  { id := page_id
    type := "page"
    title := request.title
    space_key := space_key
    body_storage_value := request.body.storage.value
    body_storage_representation := "storage"
    version_number := request.version.number
    version_minorEdit := request.version.minorEdit
    status := request.status }

/-- A PUT issued by `update_page`: either the v1 wire body against the
legacy content endpoint or the typed request against the v2 pages
endpoint. -/
inductive PageWrite where
  | putV1 (url : String) (body : V1UpdatePageBody)
  | putV2 (url : String) (body : ConfluenceUpdatePageRequest)
deriving DecidableEq

/-- The version number a `PageWrite` submits. -/
def PageWrite.submitted_version : PageWrite → Nat
  | .putV1 _ body => body.version_number
  | .putV2 _ body => body.version.number

/-- Embeds `ConfluenceSession.update_page` of `api.py` as the list of write
requests it issues.  `space_key` stands for the result of the v1 branch's
read-only lookups (`get_page_properties` + `space_id_to_key`); those are
GETs, not writes.  Both branches issue exactly one PUT built from the
`version` argument and never retry. -/
def update_page (s : ConfluenceSessionState) (page_id content title : String)
    (version : Nat) (space_key : String) : List PageWrite :=
  match s.api_version with
  | ConfluenceVersion.VERSION_1 =>
    [PageWrite.putV1 (build_url s ConfluenceVersion.VERSION_1 ("/content/" ++ page_id))
      (map_update_page_to_v1 page_id (update_page_request page_id content title version) space_key)]
  | ConfluenceVersion.VERSION_2 =>
    [PageWrite.putV2 (build_url s ConfluenceVersion.VERSION_2 ("/pages/" ++ page_id))
      (update_page_request page_id content title version)]

/-- Embeds Python's `str.removeprefix`, used on attachment ids
(`attachment.id.removeprefix("att")`). -/
def removePfxStr (s p : String) : String :=
  if p.isPrefixOf s then s.drop p.length else s

/-- The fields of an existing attachment that `upload_attachment` reads:
its id, its recorded byte size (`fileSize`) and its version. -/
structure AttachmentRec where
  id : String
  fileSize : Nat
  version : ConfluenceContentVersion
deriving DecidableEq

/-- Embeds the dataclass `ConfluenceUpdateAttachmentRequest` of `api.py`. -/
structure ConfluenceUpdateAttachmentRequest where
  id : String
  type : String
  status : String
  title : String
  version : ConfluenceContentVersion
deriving DecidableEq

/-- A write request issued by `upload_attachment`: the multipart POST of
the attachment content, or the follow-up title-reassertion PUT issued by
`_update_attachment`. -/
inductive AttachmentWrite where
  | upload (url : String)
  | titleUpdate (url : String) (body : ConfluenceUpdateAttachmentRequest)
deriving DecidableEq

/-- Whether an `AttachmentWrite` is the multipart content upload. -/
def AttachmentWrite.isUpload : AttachmentWrite → Bool
  | .upload _ => true
  | .titleUpdate _ _ => false

/-- The URL of an `AttachmentWrite`. -/
def AttachmentWrite.url : AttachmentWrite → String
  | .upload u => u
  | .titleUpdate u _ => u

/-- Embeds `ConfluenceSession._update_attachment` of `api.py`: a PUT against
the legacy attachment endpoint re-asserting the attachment title, with
`minorEdit=True`. -/
def update_attachment (s : ConfluenceSessionState) (page_id attachment_id : String)
    (version : Nat) (attachment_title : String) : AttachmentWrite :=
  AttachmentWrite.titleUpdate
    (build_url s ConfluenceVersion.VERSION_1
      ("/content/" ++ page_id ++ "/child/attachment/" ++ removePfxStr attachment_id "att"))
    { id := attachment_id
      type := "attachment"
      status := "current"
      title := attachment_title
      version := { number := version, minorEdit := true } }

/-- Embeds `ConfluenceSession.upload_attachment` of `api.py` (raw-data
variant) as the list of write requests it issues.  `existing` is the
outcome of `get_attachment_by_name` (`none` embeds the `ConfluenceError`
branch: no such attachment), `data_size` is `len(raw_data)`, and
`upload_result_id`/`upload_result_version` are the id and version number
the service reports in the upload response, from which the follow-up title
update is built with `version = result_version + 1`. -/
def upload_attachment (s : ConfluenceSessionState) (page_id attachment_name : String)
    (existing : Option AttachmentRec) (data_size : Nat) (force : Bool)
    (upload_result_id : String) (upload_result_version : Nat) : List AttachmentWrite :=
  match existing with
  | some attachment =>
    if force = false ∧ attachment.fileSize = data_size then
      []
    else
      [AttachmentWrite.upload
        (build_url s ConfluenceVersion.VERSION_1
          ("/content/" ++ page_id ++ "/child/attachment/" ++
            removePfxStr attachment.id "att" ++ "/data")),
       update_attachment s page_id upload_result_id (upload_result_version + 1) attachment_name]
  | none =>
    [AttachmentWrite.upload
      (build_url s ConfluenceVersion.VERSION_1 ("/content/" ++ page_id ++ "/child/attachment")),
     update_attachment s page_id upload_result_id (upload_result_version + 1) attachment_name]

/-- Embeds `ConfluenceSession.add_labels` of `api.py`: a single POST of the
label list against the legacy label endpoint (the version prefix is
hard-coded to VERSION_1 in the source). -/
def add_labels (s : ConfluenceSessionState) (page_id : String)
    (labels : List ConfluenceLabel) : String × List ConfluenceLabel :=
  (build_url s ConfluenceVersion.VERSION_1 ("/content/" ++ page_id ++ "/label"), labels)

/-- Embeds `ConfluenceSession.remove_labels` of `api.py`: one DELETE per
label against the legacy label endpoint, carrying the label name as the
`name` query parameter. -/
def remove_labels (s : ConfluenceSessionState) (page_id : String)
    (labels : List ConfluenceLabel) : List (String × String) :=
  labels.map (fun label =>
    (build_url s ConfluenceVersion.VERSION_1 ("/content/" ++ page_id ++ "/label"), label.name))

/-- The session's space caches (`self._space_id_to_key` and
`self._space_key_to_id`), embedded as association lists with
later-assignment-wins lookup (Python dict semantics). -/
structure SpaceCache where
  idToKey : List (String × String)
  keyToId : List (String × String)
deriving DecidableEq

/-- Python dict read `m.get(k)`. -/
def dictGet (m : List (String × String)) (k : String) : Option String :=
  (lookupLast (fun e => e.1) m k).map (fun e => e.2)

/-- Python dict write `m[k] = v`. -/
def dictSet (m : List (String × String)) (k v : String) : List (String × String) :=
  m ++ [(k, v)]

theorem lookupLast_append (keyOf : α → String) (l1 l2 : List α) (k : String) :
    lookupLast keyOf (l1 ++ l2) k =
      match lookupLast keyOf l2 k with
      | some r => some r
      | none => lookupLast keyOf l1 k := by
  induction l1 with
  | nil =>
    simp only [List.nil_append]
    cases h : lookupLast keyOf l2 k <;> simp [h, lookupLast]
  | cons x xs ih =>
    cases h : lookupLast keyOf l2 k with
    | some r => simp only [List.cons_append, lookupLast, List.append_eq, ih, h]
    | none => simp only [List.cons_append, lookupLast, List.append_eq, ih, h]

theorem dictGet_dictSet_self (m : List (String × String)) (k v : String) :
    dictGet (dictSet m k v) k = some v := by
  unfold dictGet dictSet
  rw [lookupLast_append]
  simp [lookupLast]

/-- The result of a cache-aware space lookup: the outcome (`Except` embeds
a raised `ConfluenceError`), the cache afterwards, and the number of
network requests issued. -/
structure SpaceLookupResult where
  outcome : Except String String
  cache : SpaceCache
  network_calls : Nat

/-- Embeds `ConfluenceSession._space_id_to_key_v1` of `api.py`: served only
from the reverse cache; raises a resolution error when the id is not
cached.  Issues no network request. -/
def space_id_to_key_v1 (c : SpaceCache) (id : String) : Except String String :=
  match dictGet c.idToKey id with
  | none => Except.error "Cannot resolve space ID to space key with v1 API"
  | some key => Except.ok key

/-- Embeds `ConfluenceSession.space_id_to_key` of `api.py`: checks the cache
first; on a miss routes by generation — the v1 branch consults only the
cache (zero network requests), the v2 branch queries the `/spaces` endpoint
(one network request), embedded by the oracle `server_id_lookup` (`none`
embeds "unique space not found"). -/
def space_id_to_key (s : ConfluenceSessionState) (server_id_lookup : String → Option String)
    (c : SpaceCache) (id : String) : SpaceLookupResult :=
  match dictGet c.idToKey id with
  | some key => { outcome := Except.ok key, cache := c, network_calls := 0 }
  | none =>
    match s.api_version with
    | ConfluenceVersion.VERSION_1 =>
      { outcome := space_id_to_key_v1 c id, cache := c, network_calls := 0 }
    | ConfluenceVersion.VERSION_2 =>
      match server_id_lookup id with
      | some key =>
        { outcome := Except.ok key
          cache := { c with idToKey := dictSet c.idToKey id key }
          network_calls := 1 }
      | none =>
        { outcome := Except.error "unique space not found with id"
          cache := c
          network_calls := 1 }

/-- Embeds `ConfluenceSession._space_key_to_id_v1` of `api.py`: one GET of
`/space/{key}` (embedded by the oracle `server_space_get`, which stands for
the response mapped through `map_space_v1_to_id`), then populates both the
forward and the reverse cache. -/
def space_key_to_id_v1 (server_space_get : String → String) (c : SpaceCache)
    (key : String) : String × SpaceCache × Nat :=
  let space_id := server_space_get key
  (space_id,
   { idToKey := dictSet c.idToKey space_id key
     keyToId := dictSet c.keyToId key space_id },
   1)

/-- Embeds `ConfluenceSession.space_key_to_id` of `api.py` restricted to the
legacy generation: checks the forward cache, then falls back to
`_space_key_to_id_v1`. -/
def space_key_to_id_legacy (server_space_get : String → String) (c : SpaceCache)
    (key : String) : String × SpaceCache × Nat :=
  match dictGet c.keyToId key with
  | some id => (id, c, 0)
  | none => space_key_to_id_v1 server_space_get c key

theorem insertionSort_eq_of_perm {α : Type} (r : α → α → Prop) [DecidableRel r]
    [IsTotal α r] [IsTrans α r] [IsAntisymm α r] {l1 l2 : List α} (h : l1.Perm l2) :
    List.insertionSort r l1 = List.insertionSort r l2 :=
  List.eq_of_perm_of_sorted
    ((List.perm_insertionSort r l1).trans (h.trans (List.perm_insertionSort r l2).symm))
    (List.sorted_insertionSort r l1) (List.sorted_insertionSort r l2)

/-- Claim C2: the deployment-variant hint fixes the resolved API generation:
"datacenter" and "server" resolve to the legacy generation (VERSION_1),
"cloud" resolves to the modern generation (VERSION_2), and an absent hint
(None) defaults to the modern generation. -/
theorem C2_deployment_type_mapping :
    detect_api_version (some "datacenter") = ConfluenceVersion.VERSION_1 ∧
    detect_api_version (some "server") = ConfluenceVersion.VERSION_1 ∧
    detect_api_version (some "cloud") = ConfluenceVersion.VERSION_2 ∧
    detect_api_version none = ConfluenceVersion.VERSION_2 := by
  refine ⟨?_, ?_, ?_, ?_⟩ <;> decide

/-- Claim C3: legacy (v1) pagination starts at start=0 with limit=200,
queries with those parameters, accumulates the results arrays, increments
start by the limit, and terminates exactly when a reported size is strictly
below the limit; a simulated 250-item listing (pages of sizes 200 then 50)
is retrieved in exactly 2 fetches and returns the concatenation of the two
results arrays. -/
theorem C3_v1_pagination {α : Type} :
    (∀ (server : Nat → V1ResultPage α) (fuel start : Nat),
        (server start).size < v1_limit →
        fetch_v1_go server (fuel + 1) start = ((server start).results, [(start, v1_limit)])) ∧
    (∀ (server : Nat → V1ResultPage α) (fuel start : Nat),
        ¬ (server start).size < v1_limit →
        fetch_v1_go server (fuel + 1) start =
          ((server start).results ++ (fetch_v1_go server fuel (start + v1_limit)).1,
            (start, v1_limit) :: (fetch_v1_go server fuel (start + v1_limit)).2)) ∧
    (∀ (server : Nat → V1ResultPage α) (r0 r1 : List α) (fuel : Nat),
        server 0 = ⟨r0, 200⟩ → server 200 = ⟨r1, 50⟩ →
        r0.length = 200 → r1.length = 50 → 2 ≤ fuel →
        fetch_v1 server fuel = (r0 ++ r1, [(0, 200), (200, 200)]) ∧
          (fetch_v1 server fuel).1.length = 250) := by
  refine ⟨?_, ?_, ?_⟩
  · intro server fuel start h
    simp [fetch_v1_go, h]
  · intro server fuel start h
    simp [fetch_v1_go, h]
  · intro server r0 r1 fuel h0 h200 hl0 hl1 hfuel
    obtain ⟨f, rfl⟩ : ∃ f, fuel = f + 2 :=
      ⟨fuel - 2, by omega⟩
    have : fetch_v1 server (f + 2) = (r0 ++ r1, [(0, 200), (200, 200)]) := by
      show fetch_v1_go server (f + 1 + 1) 0 = _
      rw [fetch_v1_go]
      simp only [h0, v1_limit]
      norm_num
      rw [fetch_v1_go]
      simp only [h200, v1_limit]
      norm_num
    refine ⟨this, ?_⟩
    rw [this]
    simp [hl0, hl1]

/-- Claim C4: modern (v2) pagination follows the next link of each
response's link block, resolved against the known host, until it is absent,
returning the concatenation of all results arrays; a simulated listing with
3 linked pages follows exactly 3 next links (4 fetches) and then stops. -/
theorem C4_v2_pagination {α : Type} :
    (∀ (server : String → V2ResultPage α) (domain : String) (fuel : Nat) (url : String),
        (server url).next = "" →
        fetch_v2_go server domain (fuel + 1) url = ((server url).results, [url])) ∧
    (∀ (server : String → V2ResultPage α) (domain : String) (fuel : Nat) (url : String),
        (server url).next ≠ "" →
        fetch_v2_go server domain (fuel + 1) url =
          ((server url).results ++
            (fetch_v2_go server domain fuel (resolve_next_link domain (server url).next)).1,
            url :: (fetch_v2_go server domain fuel
              (resolve_next_link domain (server url).next)).2)) ∧
    (∀ (s : ConfluenceSessionState) (server : String → V2ResultPage α) (path : String)
        (r0 r1 r2 r3 : List α) (l1 l2 l3 : String) (fuel : Nat),
        server (build_url s ConfluenceVersion.VERSION_2 path) = ⟨r0, l1⟩ → l1 ≠ "" →
        server (resolve_next_link s.domain l1) = ⟨r1, l2⟩ → l2 ≠ "" →
        server (resolve_next_link s.domain l2) = ⟨r2, l3⟩ → l3 ≠ "" →
        server (resolve_next_link s.domain l3) = ⟨r3, ""⟩ →
        4 ≤ fuel →
        fetch_v2 s server path fuel =
          (r0 ++ (r1 ++ (r2 ++ r3)),
            [build_url s ConfluenceVersion.VERSION_2 path,
             resolve_next_link s.domain l1,
             resolve_next_link s.domain l2,
             resolve_next_link s.domain l3])) := by
  refine ⟨?_, ?_, ?_⟩
  · intro server domain fuel url h
    simp [fetch_v2_go, h]
  · intro server domain fuel url h
    simp [fetch_v2_go, h]
  · intro s server path r0 r1 r2 r3 l1 l2 l3 fuel h0 hl1 h1 hl2 h2 hl3 h3 hfuel
    obtain ⟨f, rfl⟩ : ∃ f, fuel = f + 4 := ⟨fuel - 4, by omega⟩
    show fetch_v2_go server s.domain (f + 3 + 1) _ = _
    rw [fetch_v2_go]
    simp only [h0, hl1, if_neg hl1]
    rw [fetch_v2_go]
    simp only [h1, if_neg hl2]
    rw [fetch_v2_go]
    simp only [h2, if_neg hl3]
    rw [fetch_v2_go]
    simp [h3]

theorem C3_witness :
    fetch_v1
      ((fun start => if start = 0 then ⟨List.range 200, 200⟩ else ⟨List.range 50, 50⟩) :
        Nat → V1ResultPage Nat) 2 =
      (List.range 200 ++ List.range 50, [(0, 200), (200, 200)]) ∧
    (fetch_v1
      ((fun start => if start = 0 then ⟨List.range 200, 200⟩ else ⟨List.range 50, 50⟩) :
        Nat → V1ResultPage Nat) 2).1.length = 250 :=
  C3_v1_pagination.2.2
    ((fun start => if start = 0 then ⟨List.range 200, 200⟩ else ⟨List.range 50, 50⟩) :
      Nat → V1ResultPage Nat)
    (List.range 200) (List.range 50) 2 rfl rfl (by simp) (by simp) (le_refl 2)

theorem C4_witness :
    fetch_v2 ⟨"https://example.net/wiki/", "example.net", ConfluenceVersion.VERSION_2⟩
      ((fun url =>
        if url = "https://example.net/wiki/api/v2/pages" then ⟨[0], "/l1"⟩
        else if url = "https://example.net/l1" then ⟨[1], "/l2"⟩
        else if url = "https://example.net/l2" then ⟨[2], "/l3"⟩
        else ⟨[3], ""⟩) : String → V2ResultPage Nat)
      "/pages" 4 =
      ([0] ++ ([1] ++ ([2] ++ [3])),
        [build_url ⟨"https://example.net/wiki/", "example.net", ConfluenceVersion.VERSION_2⟩
          ConfluenceVersion.VERSION_2 "/pages",
         resolve_next_link "example.net" "/l1",
         resolve_next_link "example.net" "/l2",
         resolve_next_link "example.net" "/l3"]) :=
  C4_v2_pagination.2.2 ⟨"https://example.net/wiki/", "example.net", ConfluenceVersion.VERSION_2⟩
    ((fun url =>
      if url = "https://example.net/wiki/api/v2/pages" then ⟨[0], "/l1"⟩
      else if url = "https://example.net/l1" then ⟨[1], "/l2"⟩
      else if url = "https://example.net/l2" then ⟨[2], "/l3"⟩
      else ⟨[3], ""⟩) : String → V2ResultPage Nat)
    "/pages" [0] [1] [2] [3] "/l1" "/l2" "/l3" 4
    (by decide) (by decide) (by decide) (by decide) (by decide) (by decide) (by decide)
    (le_refl 4)

/-- Claim C5: for every well-formed legacy (v1) page response, the domain
mapping sets spaceId to the nested space.id, sets the version number to the
nested version.number, and sets parentId to the id of the last element of a
non-empty ancestors list and to None when the list is empty; the full page
mapper agrees with the properties mapper on these fields. -/
theorem C5_map_v1_to_domain (r : V1PageResponse) (sp : V1SpaceObject) (v : V1VersionObject)
    (hs : r.space = some sp) (hv : r.version = some v) :
    ∃ p, map_page_properties_v1_to_domain r = some p ∧
      p.spaceId = sp.id ∧
      p.version.number = v.number ∧
      (r.ancestors = [] → p.parentId = none) ∧
      (∀ pre a, r.ancestors = pre ++ [a] → p.parentId = some a.id) ∧
      ∃ pg, map_page_v1_to_domain r = some pg ∧ pg.toConfluencePageProperties = p := by
  have hmap : map_page_properties_v1_to_domain r = some
      { id := r.id
        status := r.status
        title := r.title
        spaceId := sp.id
        parentId := (r.ancestors.getLast?).map (fun a => a.id)
        parentType := none
        position := none
        authorId := r.history_createdBy_accountId.getD "unknown"
        ownerId := r.history_createdBy_accountId.getD "unknown"
        lastOwnerId := none
        version := { number := (r.version.map (fun q => q.number)).getD 1 } } := by
    unfold map_page_properties_v1_to_domain
    rw [hs]
  have hmap2 : map_page_v1_to_domain r = some
      { id := r.id
        status := r.status
        title := r.title
        spaceId := sp.id
        parentId := (r.ancestors.getLast?).map (fun a => a.id)
        parentType := none
        position := none
        authorId := r.history_createdBy_accountId.getD "unknown"
        ownerId := r.history_createdBy_accountId.getD "unknown"
        lastOwnerId := none
        version := { number := (r.version.map (fun q => q.number)).getD 1 }
        body :=
          { storage :=
            { representation := r.body_storage_representation.getD "storage"
              value := r.body_storage_value.getD "" } } } := by
    unfold map_page_v1_to_domain
    rw [hmap]
  refine ⟨_, hmap, rfl, by simp [hv], ?_, ?_, ⟨_, hmap2, rfl⟩⟩
  · intro he
    simp [he]
  · intro pre a ha
    simp [ha, List.getLast?_concat]

theorem C5_witness :
    ∃ p, map_page_properties_v1_to_domain
        { id := "86"
          title := "Home"
          status := "current"
          space := some { id := "65537" }
          ancestors := [{ id := "1" }, { id := "2" }, { id := "3" }]
          version := some { number := 7 }
          body_storage_value := some "<p/>"
          body_storage_representation := some "storage"
          history_createdBy_accountId := some "acc" } = some p ∧
      p.spaceId = "65537" ∧
      p.version.number = 7 ∧
      ([({ id := "1" } : V1Ancestor), { id := "2" }, { id := "3" }] = [] → p.parentId = none) ∧
      (∀ pre a,
        [({ id := "1" } : V1Ancestor), { id := "2" }, { id := "3" }] = pre ++ [a] →
        p.parentId = some a.id) ∧
      ∃ pg, map_page_v1_to_domain
        { id := "86"
          title := "Home"
          status := "current"
          space := some { id := "65537" }
          ancestors := [{ id := "1" }, { id := "2" }, { id := "3" }]
          version := some { number := 7 }
          body_storage_value := some "<p/>"
          body_storage_representation := some "storage"
          history_createdBy_accountId := some "acc" } = some pg ∧
        pg.toConfluencePageProperties = p :=
  C5_map_v1_to_domain _ { id := "65537" } { number := 7 } rfl rfl

/-- Claim C6, as stated, is false on the code: `update_page` submits the
`version` argument itself as the new version number, not `version + 1` (the
docstring of the source reads "New version to assign to the page"; the
caller is the one that must pass current-plus-one).  At version 5 the
submitted number is 5, not 6, under either generation. -/
theorem C6_counterexample :
    (update_page ⟨"https://example.net/wiki/", "example.net", ConfluenceVersion.VERSION_2⟩
        "86" "<p/>" "t" 5 "KEY").map PageWrite.submitted_version ≠ [5 + 1] ∧
    (update_page ⟨"https://example.net/wiki/", "example.net", ConfluenceVersion.VERSION_1⟩
        "86" "<p/>" "t" 5 "KEY").map PageWrite.submitted_version ≠ [5 + 1] := by
  refine ⟨?_, ?_⟩ <;> decide

/-- Claim C6 amended: the page update operation, given a version argument,
submits exactly that version as the new version number in the single update
request it issues, under both generations, and never issues a second
(retry) write; a version mismatch is left to the service to reject. -/
theorem C6_update_page_submits_given_version (s : ConfluenceSessionState)
    (page_id content title : String) (version : Nat) (space_key : String) :
    (update_page s page_id content title version space_key).map PageWrite.submitted_version
      = [version] := by
  obtain ⟨api_url, domain, v⟩ := s
  cases v <;>
    simp [update_page, PageWrite.submitted_version, map_update_page_to_v1, update_page_request]

/-- Claim C7, as stated, is false on the code in its force branch: with
`force=true` and an existing same-size attachment, `upload_attachment`
issues the multipart content POST and then unconditionally issues the
title-reassertion PUT of `_update_attachment` — two write requests, not
exactly one. -/
theorem C7_counterexample :
    (upload_attachment ⟨"https://example.net/wiki/", "example.net", ConfluenceVersion.VERSION_2⟩
        "86" "figure.png" (some { id := "att99", fileSize := 10, version := { number := 3 } })
        10 true "att99" 3).length ≠ 1 := by
  decide

/-- Claim C7 amended: for an existing attachment of the same recorded byte
size, `force=false` issues zero write requests (a no-op); `force=true`
issues exactly two write requests — the content upload POST followed by the
title-reassertion PUT — of which exactly one is the content upload. -/
theorem C7_upload_attachment_writes (s : ConfluenceSessionState)
    (page_id attachment_name : String) (att : AttachmentRec) (data_size : Nat)
    (force : Bool) (upload_result_id : String) (upload_result_version : Nat) :
    (force = false → att.fileSize = data_size →
      upload_attachment s page_id attachment_name (some att) data_size force
        upload_result_id upload_result_version = []) ∧
    (force = true →
      (upload_attachment s page_id attachment_name (some att) data_size force
        upload_result_id upload_result_version).length = 2 ∧
      ((upload_attachment s page_id attachment_name (some att) data_size force
        upload_result_id upload_result_version).filter AttachmentWrite.isUpload).length = 1) := by
  constructor
  · intro hf hsize
    simp [upload_attachment, hf, hsize]
  · intro hf
    have : ¬ (force = false ∧ att.fileSize = data_size) := by
      rintro ⟨h1, _⟩
      rw [hf] at h1
      exact Bool.noConfusion h1
    constructor
    · simp [upload_attachment, this]
    · simp [upload_attachment, this, update_attachment, AttachmentWrite.isUpload]

theorem C7_witness :
    (upload_attachment ⟨"https://example.net/wiki/", "example.net", ConfluenceVersion.VERSION_2⟩
        "86" "figure.png" (some { id := "att99", fileSize := 10, version := { number := 3 } })
        10 false "att99" 3 = []) ∧
    ((upload_attachment ⟨"https://example.net/wiki/", "example.net", ConfluenceVersion.VERSION_2⟩
        "86" "figure.png" (some { id := "att99", fileSize := 10, version := { number := 3 } })
        11 true "att99" 3).length = 2 ∧
      ((upload_attachment ⟨"https://example.net/wiki/", "example.net", ConfluenceVersion.VERSION_2⟩
        "86" "figure.png" (some { id := "att99", fileSize := 10, version := { number := 3 } })
        11 true "att99" 3).filter AttachmentWrite.isUpload).length = 1) :=
  ⟨(C7_upload_attachment_writes ⟨"https://example.net/wiki/", "example.net",
      ConfluenceVersion.VERSION_2⟩ "86" "figure.png"
      { id := "att99", fileSize := 10, version := { number := 3 } } 10 false "att99" 3).1
    rfl rfl,
   (C7_upload_attachment_writes ⟨"https://example.net/wiki/", "example.net",
      ConfluenceVersion.VERSION_2⟩ "86" "figure.png"
      { id := "att99", fileSize := 10, version := { number := 3 } } 11 true "att99" 3).2
    rfl⟩

/-- Claim C9: under the legacy generation, resolving a space id to a key
with no prior key-to-id resolution raises a resolution error without any
network request; after one successful key-to-id resolution (one GET), the
reverse lookup for the returned id is served from the session cache with
zero network requests. -/
theorem C9_space_cache_asymmetry (api_url domain : String)
    (server_id_lookup : String → Option String) (server_space_get : String → String)
    (c : SpaceCache) (id key : String)
    (hmiss : dictGet c.idToKey id = none)
    (hkeymiss : dictGet c.keyToId key = none) :
    ((space_id_to_key ⟨api_url, domain, ConfluenceVersion.VERSION_1⟩
        server_id_lookup c id).network_calls = 0 ∧
      (space_id_to_key ⟨api_url, domain, ConfluenceVersion.VERSION_1⟩
        server_id_lookup c id).outcome =
        Except.error "Cannot resolve space ID to space key with v1 API") ∧
    ((space_key_to_id_legacy server_space_get c key).2.2 = 1 ∧
      space_id_to_key ⟨api_url, domain, ConfluenceVersion.VERSION_1⟩ server_id_lookup
          (space_key_to_id_legacy server_space_get c key).2.1
          (space_key_to_id_legacy server_space_get c key).1 =
        { outcome := Except.ok key
          cache := (space_key_to_id_legacy server_space_get c key).2.1
          network_calls := 0 }) := by
  constructor
  · constructor
    · simp [space_id_to_key, hmiss]
    · simp [space_id_to_key, space_id_to_key_v1, hmiss]
  · have hlegacy : space_key_to_id_legacy server_space_get c key =
        (server_space_get key,
          { idToKey := dictSet c.idToKey (server_space_get key) key
            keyToId := dictSet c.keyToId key (server_space_get key) },
          1) := by
      simp [space_key_to_id_legacy, space_key_to_id_v1, hkeymiss]
    rw [hlegacy]
    constructor
    · rfl
    · simp [space_id_to_key, dictGet_dictSet_self]

theorem C9_witness :
    ((space_id_to_key ⟨"https://example.net/wiki/", "example.net", ConfluenceVersion.VERSION_1⟩
        (fun _ => none) ⟨[], []⟩ "65537").network_calls = 0 ∧
      (space_id_to_key ⟨"https://example.net/wiki/", "example.net", ConfluenceVersion.VERSION_1⟩
        (fun _ => none) ⟨[], []⟩ "65537").outcome =
        Except.error "Cannot resolve space ID to space key with v1 API") ∧
    ((space_key_to_id_legacy (fun _ => "65537") ⟨[], []⟩ "SPACE").2.2 = 1 ∧
      space_id_to_key ⟨"https://example.net/wiki/", "example.net", ConfluenceVersion.VERSION_1⟩
          (fun _ => none)
          (space_key_to_id_legacy (fun _ => "65537") ⟨[], []⟩ "SPACE").2.1
          (space_key_to_id_legacy (fun _ => "65537") ⟨[], []⟩ "SPACE").1 =
        { outcome := Except.ok "SPACE"
          cache := (space_key_to_id_legacy (fun _ => "65537") ⟨[], []⟩ "SPACE").2.1
          network_calls := 0 }) :=
  C9_space_cache_asymmetry "https://example.net/wiki/" "example.net" (fun _ => none)
    (fun _ => "65537") ⟨[], []⟩ "65537" "SPACE" rfl rfl

/-- Claim C10: regardless of the session's resolved API generation
(including sessions resolved to the modern generation), the label add
request, every label remove request, and all attachment write requests
(upload POST and post-upload title update PUT) build their URLs with the
legacy rest/api (VERSION_1) path prefix; in particular the requests do not
depend on the session's api_version at all. -/
theorem C10_label_attachment_requests_use_v1 (api_url domain : String)
    (v : ConfluenceVersion) (page_id attachment_name : String)
    (labels : List ConfluenceLabel) (existing : Option AttachmentRec)
    (data_size : Nat) (force : Bool) (upload_result_id : String)
    (upload_result_version : Nat) (attachment_id : String) (version : Nat)
    (title : String) :
    add_labels ⟨api_url, domain, v⟩ page_id labels =
      (api_url ++ "rest/api" ++ ("/content/" ++ page_id ++ "/label"), labels) ∧
    remove_labels ⟨api_url, domain, v⟩ page_id labels =
      labels.map (fun label =>
        (api_url ++ "rest/api" ++ ("/content/" ++ page_id ++ "/label"), label.name)) ∧
    (update_attachment ⟨api_url, domain, v⟩ page_id attachment_id version title).url =
      api_url ++ "rest/api" ++
        ("/content/" ++ page_id ++ "/child/attachment/" ++ removePfxStr attachment_id "att") ∧
    (∀ w ∈ upload_attachment ⟨api_url, domain, v⟩ page_id attachment_name existing
        data_size force upload_result_id upload_result_version,
      ∃ rest, w.url = api_url ++ ("rest/api" ++ rest)) := by
  refine ⟨rfl, rfl, rfl, ?_⟩
  intro w hw
  cases existing with
  | some att =>
    by_cases hc : force = false ∧ att.fileSize = data_size
    · simp [upload_attachment, hc] at hw
    · simp only [upload_attachment, if_neg hc, List.mem_cons, List.not_mem_nil, or_false] at hw
      rcases hw with rfl | rfl
      · exact ⟨"/content/" ++ page_id ++ "/child/attachment/" ++
            removePfxStr att.id "att" ++ "/data",
          by simp [AttachmentWrite.url, build_url, ConfluenceVersion.value,
            String.append_assoc]⟩
      · exact ⟨"/content/" ++ page_id ++ "/child/attachment/" ++
            removePfxStr upload_result_id "att",
          by simp [AttachmentWrite.url, update_attachment, build_url,
            ConfluenceVersion.value, String.append_assoc]⟩
  | none =>
    simp only [upload_attachment, List.mem_cons, List.not_mem_nil, or_false] at hw
    rcases hw with rfl | rfl
    · exact ⟨"/content/" ++ page_id ++ "/child/attachment",
        by simp [AttachmentWrite.url, build_url, ConfluenceVersion.value,
          String.append_assoc]⟩
    · exact ⟨"/content/" ++ page_id ++ "/child/attachment/" ++
          removePfxStr upload_result_id "att",
        by simp [AttachmentWrite.url, update_attachment, build_url,
          ConfluenceVersion.value, String.append_assoc]⟩

theorem C10_witness :
    add_labels ⟨"https://example.net/wiki/", "example.net", ConfluenceVersion.VERSION_2⟩
        "86" ([{ name := "docs", pfx := "global" }] : List ConfluenceLabel) =
      ("https://example.net/wiki/" ++ "rest/api" ++ ("/content/" ++ "86" ++ "/label"),
        ([{ name := "docs", pfx := "global" }] : List ConfluenceLabel)) ∧
    remove_labels ⟨"https://example.net/wiki/", "example.net", ConfluenceVersion.VERSION_2⟩
        "86" ([{ name := "docs", pfx := "global" }] : List ConfluenceLabel) =
      ([{ name := "docs", pfx := "global" }] : List ConfluenceLabel).map (fun label =>
        ("https://example.net/wiki/" ++ "rest/api" ++ ("/content/" ++ "86" ++ "/label"),
          label.name)) ∧
    (update_attachment ⟨"https://example.net/wiki/", "example.net",
        ConfluenceVersion.VERSION_2⟩ "86" "att99" 4 "figure.png").url =
      "https://example.net/wiki/" ++ "rest/api" ++
        ("/content/" ++ "86" ++ "/child/attachment/" ++ removePfxStr "att99" "att") ∧
    (∀ w ∈ upload_attachment ⟨"https://example.net/wiki/", "example.net",
        ConfluenceVersion.VERSION_2⟩ "86" "figure.png"
        (some { id := "att99", fileSize := 10, version := { number := 3 } }) 11 false
        "att99" 3,
      ∃ rest, w.url = "https://example.net/wiki/" ++ ("rest/api" ++ rest)) :=
  C10_label_attachment_requests_use_v1 "https://example.net/wiki/" "example.net"
    ConfluenceVersion.VERSION_2 "86" "figure.png" ([{ name := "docs", pfx := "global" }] : List ConfluenceLabel)
    (some { id := "att99", fileSize := 10, version := { number := 3 } }) 11 false
    "att99" 3 "att99" 4 "figure.png"

theorem mem_update_labels_fst (desired remote : List ConfluenceLabel) (ke : Bool)
    (x : ConfluenceLabel) :
    x ∈ (update_labels desired remote ke).1 ↔ x ∈ desired ∧ x ∉ remote := by
  simp [update_labels, List.mem_filter, List.mem_dedup]

theorem mem_update_labels_snd (desired remote : List ConfluenceLabel)
    (x : ConfluenceLabel) :
    x ∈ (update_labels desired remote false).2 ↔ x ∈ remote ∧ x ∉ desired := by
  simp [update_labels, List.mem_filter, List.mem_dedup]

theorem mem_apply_label_ops (desired remote : List ConfluenceLabel)
    (x : ConfluenceLabel) :
    x ∈ apply_label_ops remote (update_labels desired remote false).1
        (update_labels desired remote false).2 ↔ x ∈ desired := by
  simp only [apply_label_ops, List.mem_filter, List.mem_append,
    mem_update_labels_fst, mem_update_labels_snd, decide_eq_true_eq]
  constructor
  · rintro ⟨hr | ⟨hd, _⟩, hnot⟩
    · by_contra hxd
      exact hnot ⟨hr, hxd⟩
    · exact hd
  · intro hd
    by_cases hr : x ∈ remote
    · exact ⟨Or.inl hr, fun hc => hc.2 hd⟩
    · exact ⟨Or.inr ⟨hd, hr⟩, fun hc => hc.2 hd⟩

theorem label_diff_sort_congr {d1 d2 r1 r2 : List ConfluenceLabel}
    (hd : d1.Perm d2) (hr : r1.Perm r2) :
    List.insertionSort labelLe (d1.dedup.filter (fun l => decide (l ∉ r1))) =
    List.insertionSort labelLe (d2.dedup.filter (fun l => decide (l ∉ r2))) := by
  have h1 : d1.dedup.filter (fun l => decide (l ∉ r1)) =
      d1.dedup.filter (fun l => decide (l ∉ r2)) :=
    List.filter_congr (fun x _ => by simp [hr.mem_iff])
  rw [h1]
  exact insertionSort_eq_of_perm labelLe (hd.dedup.filter _)

theorem key_sort_filter_congr {a1 a2 : List String} (ha : a1.Perm a2)
    {p q : String → Bool} (hpq : ∀ k, p k = q k) :
    List.insertionSort strLe (a1.dedup.filter p) =
    List.insertionSort strLe (a2.dedup.filter q) := by
  rw [List.filter_congr (fun x _ => hpq x)]
  exact insertionSort_eq_of_perm strLe (ha.dedup.filter q)

theorem mem_prop_add_keys {V : Type} [DecidableEq V]
    (remote : List (ConfluenceIdentifiedContentProperty V))
    (props : List (ConfluenceContentProperty V)) (k : String) :
    k ∈ prop_add_keys remote props ↔
      k ∈ props.map (fun q => q.key) ∧ k ∉ remote.map (fun q => q.key) := by
  simp [prop_add_keys, List.mem_filter, List.mem_dedup]

theorem mem_prop_remove_keys {V : Type} [DecidableEq V]
    (remote : List (ConfluenceIdentifiedContentProperty V))
    (props : List (ConfluenceContentProperty V)) (k : String) :
    k ∈ prop_remove_keys remote props ↔
      k ∈ remote.map (fun q => q.key) ∧ k ∉ props.map (fun q => q.key) := by
  simp [prop_remove_keys, List.mem_filter, List.mem_dedup]

theorem mem_prop_update_keys {V : Type} [DecidableEq V]
    (remote : List (ConfluenceIdentifiedContentProperty V))
    (props : List (ConfluenceContentProperty V)) (k : String) :
    k ∈ prop_update_keys remote props ↔
      k ∈ remote.map (fun q => q.key) ∧ k ∈ props.map (fun q => q.key) := by
  simp [prop_update_keys, List.mem_filter, List.mem_dedup]

/-- Claim C1: child-object reconciliation is order-stable and idempotent.
For labels, the add and remove lists passed on by `update_labels` are
sorted in ascending (name, prefix) order, are independent of the iteration
order of either input, and a second run against the remote state resulting
from applying both lists issues no operation.  For content properties, the
add, remove and update key lists of `update_content_properties_for_page`
are sorted in ascending key order, the issued operation list is independent
of the iteration order of either input (for duplicate-free key sets, i.e.
genuine sets), and a second run against any remote state whose keys and
values agree with the desired set issues no operation. -/
theorem C1_reconciliation_order_stable_idempotent :
    (∀ (desired remote : List ConfluenceLabel) (ke : Bool),
        List.Sorted labelLe (update_labels desired remote ke).1 ∧
        List.Sorted labelLe (update_labels desired remote ke).2) ∧
    (∀ (d1 d2 r1 r2 : List ConfluenceLabel) (ke : Bool),
        d1.Perm d2 → r1.Perm r2 →
        update_labels d1 r1 ke = update_labels d2 r2 ke) ∧
    (∀ (desired remote : List ConfluenceLabel),
        update_labels desired
          (apply_label_ops remote (update_labels desired remote false).1
            (update_labels desired remote false).2) false = ([], [])) ∧
    (∀ (V : Type) [DecidableEq V] (remote : List (ConfluenceIdentifiedContentProperty V))
        (props : List (ConfluenceContentProperty V)),
        List.Sorted strLe (prop_add_keys remote props) ∧
        List.Sorted strLe (prop_remove_keys remote props) ∧
        List.Sorted strLe (prop_update_keys remote props)) ∧
    (∀ (V : Type) [DecidableEq V]
        (r1 r2 : List (ConfluenceIdentifiedContentProperty V))
        (p1 p2 : List (ConfluenceContentProperty V)) (ke : Bool),
        r1.Perm r2 → p1.Perm p2 →
        (r1.map (fun q => q.key)).Nodup → (p1.map (fun q => q.key)).Nodup →
        update_content_properties_for_page r1 p1 ke =
          update_content_properties_for_page r2 p2 ke) ∧
    (∀ (V : Type) [DecidableEq V]
        (remote2 : List (ConfluenceIdentifiedContentProperty V))
        (props : List (ConfluenceContentProperty V)),
        (∀ k, k ∈ remote2.map (fun q => q.key) ↔ k ∈ props.map (fun q => q.key)) →
        (∀ k po np, lookupLast (fun q => q.key) remote2 k = some po →
          lookupLast (fun q => q.key) props k = some np → po.value = np.value) →
        update_content_properties_for_page remote2 props false = []) := by
  refine ⟨?_, ?_, ?_, ?_, ?_, ?_⟩
  · intro d r ke
    constructor
    · exact List.sorted_insertionSort labelLe _
    · cases ke with
      | false => exact List.sorted_insertionSort labelLe _
      | true => exact List.sorted_nil
  · intro d1 d2 r1 r2 ke hd hr
    have ha := label_diff_sort_congr hd hr
    have hb := label_diff_sort_congr hr hd
    simp only [update_labels]
    rw [ha, hb]
  · intro d r
    have key : ∀ (A : List ConfluenceLabel), (∀ x, x ∈ A ↔ x ∈ d) →
        update_labels d A false = ([], []) := by
      intro A hA
      have h1 : d.dedup.filter (fun l => decide (l ∉ A)) = [] := by
        rw [List.filter_eq_nil_iff]
        intro a ha
        simp only [decide_eq_true_eq, not_not, hA]
        exact List.mem_dedup.mp ha
      have h2 : A.dedup.filter (fun l => decide (l ∉ d)) = [] := by
        rw [List.filter_eq_nil_iff]
        intro a ha
        have had : a ∈ d := (hA a).mp (List.mem_dedup.mp ha)
        simp [had]
      simp only [update_labels, h1, h2]
      rfl
    exact key _ (mem_apply_label_ops d r)
  · intro V _ remote props
    exact ⟨List.sorted_insertionSort strLe _, List.sorted_insertionSort strLe _,
      List.sorted_insertionSort strLe _⟩
  · intro V _ r1 r2 p1 p2 ke hr hp hndr hndp
    have hkadd : prop_add_keys r1 p1 = prop_add_keys r2 p2 := by
      unfold prop_add_keys
      exact key_sort_filter_congr (hp.map _)
        (fun k => by simp [(hr.map (fun q => q.key)).mem_iff])
    have hkrem : prop_remove_keys r1 p1 = prop_remove_keys r2 p2 := by
      unfold prop_remove_keys
      exact key_sort_filter_congr (hr.map _)
        (fun k => by simp [(hp.map (fun q => q.key)).mem_iff])
    have hkupd : prop_update_keys r1 p1 = prop_update_keys r2 p2 := by
      unfold prop_update_keys
      exact key_sort_filter_congr (hr.map _)
        (fun k => by simp [(hp.map (fun q => q.key)).mem_iff])
    have hlookr : ∀ k, lookupLast (fun q => q.key) r1 k = lookupLast (fun q => q.key) r2 k :=
      fun k => lookupLast_perm _ hr hndr k
    have hlookp : ∀ k, lookupLast (fun q => q.key) p1 k = lookupLast (fun q => q.key) p2 k :=
      fun k => lookupLast_perm _ hp hndp k
    have hf1 : (fun k => (lookupLast (fun q => q.key) p1 k).map PropertyOp.add) =
        (fun k => (lookupLast (fun q => q.key) p2 k).map PropertyOp.add) :=
      funext fun k => by rw [hlookp k]
    have hf2 : ((fun k => (lookupLast (fun q => q.key) r1 k).map
          (fun p => PropertyOp.remove p.id)) : String → Option (PropertyOp V)) =
        (fun k => (lookupLast (fun q => q.key) r2 k).map
          (fun p => PropertyOp.remove p.id)) :=
      funext fun k => by rw [hlookr k]
    have hf3 : ((fun k =>
        match lookupLast (fun q => q.key) r1 k, lookupLast (fun q => q.key) p1 k with
        | some old_prop, some new_prop =>
          if old_prop.value = new_prop.value then none
          else some (PropertyOp.update old_prop.id (old_prop.version.number + 1) new_prop)
        | _, _ => none) : String → Option (PropertyOp V)) =
        (fun k =>
        match lookupLast (fun q => q.key) r2 k, lookupLast (fun q => q.key) p2 k with
        | some old_prop, some new_prop =>
          if old_prop.value = new_prop.value then none
          else some (PropertyOp.update old_prop.id (old_prop.version.number + 1) new_prop)
        | _, _ => none) :=
      funext fun k => by rw [hlookr k, hlookp k]
    simp only [update_content_properties_for_page, hkadd, hkrem, hkupd, hf1, hf2, hf3]
  · intro V _ remote2 props hkeys hvals
    have h1 : (props.map (fun q => q.key)).dedup.filter
        (fun k => decide (k ∉ remote2.map (fun q => q.key))) = [] := by
      rw [List.filter_eq_nil_iff]
      intro k hk
      simp only [decide_eq_true_eq, not_not]
      exact (hkeys k).mpr (List.mem_dedup.mp hk)
    have h2 : (remote2.map (fun q => q.key)).dedup.filter
        (fun k => decide (k ∉ props.map (fun q => q.key))) = [] := by
      rw [List.filter_eq_nil_iff]
      intro k hk
      simp only [decide_eq_true_eq, not_not]
      exact (hkeys k).mp (List.mem_dedup.mp hk)
    have ha : prop_add_keys remote2 props = [] := by
      unfold prop_add_keys
      rw [h1]
      rfl
    have hb : prop_remove_keys remote2 props = [] := by
      unfold prop_remove_keys
      rw [h2]
      rfl
    have h3 : ∀ k ∈ prop_update_keys remote2 props,
        (match lookupLast (fun q => q.key) remote2 k, lookupLast (fun q => q.key) props k with
          | some old_prop, some new_prop =>
            if old_prop.value = new_prop.value then none
            else some (PropertyOp.update old_prop.id (old_prop.version.number + 1) new_prop)
          | _, _ => none) = (none : Option (PropertyOp V)) := by
      intro k hk
      obtain ⟨hkr, hkp⟩ := (mem_prop_update_keys remote2 props k).mp hk
      obtain ⟨o, ho⟩ := (lookupLast_isSome_iff _ remote2 k).mpr hkr
      obtain ⟨n, hn⟩ := (lookupLast_isSome_iff _ props k).mpr hkp
      rw [ho, hn]
      simp [hvals k o n ho hn]
    simp only [update_content_properties_for_page, ha, hb, List.filterMap_nil,
      List.nil_append, Bool.false_eq_true, if_false]
    rw [List.filterMap_eq_nil_iff.mpr h3]

theorem C1_witness :
    (update_labels
        ([⟨"b", "global"⟩, ⟨"a", "global"⟩] : List ConfluenceLabel) [] false =
      update_labels ([⟨"a", "global"⟩, ⟨"b", "global"⟩] : List ConfluenceLabel) [] false) ∧
    (update_content_properties_for_page
        ([⟨"k1", 1, ⟨1, false⟩, "p1"⟩] : List (ConfluenceIdentifiedContentProperty Nat))
        ([⟨"b", 2⟩, ⟨"a", 3⟩] : List (ConfluenceContentProperty Nat)) false =
      update_content_properties_for_page
        ([⟨"k1", 1, ⟨1, false⟩, "p1"⟩] : List (ConfluenceIdentifiedContentProperty Nat))
        ([⟨"a", 3⟩, ⟨"b", 2⟩] : List (ConfluenceContentProperty Nat)) false) ∧
    (update_content_properties_for_page
        ([⟨"a", 5, ⟨2, false⟩, "id1"⟩] : List (ConfluenceIdentifiedContentProperty Nat))
        ([⟨"a", 5⟩] : List (ConfluenceContentProperty Nat)) false = []) :=
  ⟨C1_reconciliation_order_stable_idempotent.2.1
      [⟨"b", "global"⟩, ⟨"a", "global"⟩] [⟨"a", "global"⟩, ⟨"b", "global"⟩] [] [] false
      (List.Perm.swap (⟨"a", "global"⟩ : ConfluenceLabel) ⟨"b", "global"⟩ [])
      (List.Perm.refl []),
   C1_reconciliation_order_stable_idempotent.2.2.2.2.1 Nat
      [⟨"k1", 1, ⟨1, false⟩, "p1"⟩] [⟨"k1", 1, ⟨1, false⟩, "p1"⟩]
      [⟨"b", 2⟩, ⟨"a", 3⟩] [⟨"a", 3⟩, ⟨"b", 2⟩] false
      (List.Perm.refl _)
      (List.Perm.swap (⟨"a", 3⟩ : ConfluenceContentProperty Nat) ⟨"b", 2⟩ [])
      (by decide) (by decide),
   C1_reconciliation_order_stable_idempotent.2.2.2.2.2 Nat
      [⟨"a", 5, ⟨2, false⟩, "id1"⟩] [⟨"a", 5⟩] (fun _ => Iff.rfl)
      (by
        intro k po np hpo hnp
        simp only [lookupLast] at hpo hnp
        by_cases hk : ("a" : String) = k
        · simp only [hk, if_true, Option.some.injEq] at hpo hnp
          rw [← hpo, ← hnp]
        · simp [hk] at hpo)⟩

/-- Claim C8: the update operations issued by content-property
reconciliation are exactly those for keys present in both the remote and
the desired mapping whose values differ; an equal value triggers no update
request; and every issued update submits the remote property's current
version number plus 1 against the remote property's id. -/
theorem C8_property_update_requests {V : Type} [DecidableEq V]
    (remote : List (ConfluenceIdentifiedContentProperty V))
    (props : List (ConfluenceContentProperty V)) (ke : Bool) :
    (∀ (id : String) (version : Nat) (p : ConfluenceContentProperty V),
      PropertyOp.update id version p ∈ update_content_properties_for_page remote props ke ↔
        ∃ old_prop, lookupLast (fun q => q.key) remote p.key = some old_prop ∧
          lookupLast (fun q => q.key) props p.key = some p ∧
          old_prop.value ≠ p.value ∧
          id = old_prop.id ∧ version = old_prop.version.number + 1) ∧
    (∀ (k : String) (old_prop : ConfluenceIdentifiedContentProperty V)
        (new_prop : ConfluenceContentProperty V),
      lookupLast (fun q => q.key) remote k = some old_prop →
      lookupLast (fun q => q.key) props k = some new_prop →
      old_prop.value = new_prop.value →
      ∀ (id : String) (version : Nat),
        PropertyOp.update id version new_prop ∉
          update_content_properties_for_page remote props ke) := by
  have hiff : ∀ (id : String) (version : Nat) (p : ConfluenceContentProperty V),
      PropertyOp.update id version p ∈ update_content_properties_for_page remote props ke ↔
        ∃ old_prop, lookupLast (fun q => q.key) remote p.key = some old_prop ∧
          lookupLast (fun q => q.key) props p.key = some p ∧
          old_prop.value ≠ p.value ∧
          id = old_prop.id ∧ version = old_prop.version.number + 1 := by
    intro id version p
    constructor
    · intro hmem
      simp only [update_content_properties_for_page, List.mem_append,
        List.mem_filterMap] at hmem
      rcases hmem with (⟨k, _, heq⟩ | hrem) | ⟨k, hk, heq⟩
      · rcases Option.map_eq_some'.mp heq with ⟨a, _, hcon⟩
        exact absurd hcon (by simp)
      · rcases hke : ke with _ | _
        · rw [hke] at hrem
          simp only [if_false, Bool.false_eq_true, List.mem_filterMap] at hrem
          rcases hrem with ⟨k, _, heq⟩
          rcases Option.map_eq_some'.mp heq with ⟨a, _, hcon⟩
          exact absurd hcon (by simp)
        · rw [hke] at hrem
          simp at hrem
      · rcases ho : lookupLast (fun q => q.key) remote k with _ | o
        · rw [ho] at heq
          simp at heq
        · rcases hn : lookupLast (fun q => q.key) props k with _ | n
          · rw [ho, hn] at heq
            simp at heq
          · rw [ho, hn] at heq
            have heq2 : (if o.value = n.value then (none : Option (PropertyOp V))
                else some (PropertyOp.update o.id (o.version.number + 1) n)) =
                some (PropertyOp.update id version p) := heq
            by_cases hv : o.value = n.value
            · rw [if_pos hv] at heq2
              exact absurd heq2 (by simp)
            · rw [if_neg hv] at heq2
              simp only [Option.some.injEq, PropertyOp.update.injEq] at heq2
              obtain ⟨hid, hver, hp⟩ := heq2
              have hkey : n.key = k := lookupLast_key _ props k n hn
              subst hp
              rw [hkey]
              exact ⟨o, ho, hn, hv, hid.symm, hver.symm⟩
    · rintro ⟨o, ho, hp, hne, rfl, rfl⟩
      simp only [update_content_properties_for_page, List.mem_append, List.mem_filterMap]
      refine Or.inr ⟨p.key, ?_, ?_⟩
      · rw [mem_prop_update_keys]
        exact ⟨(lookupLast_isSome_iff _ remote p.key).mp ⟨o, ho⟩,
          (lookupLast_isSome_iff _ props p.key).mp ⟨p, hp⟩⟩
      · rw [ho, hp]
        show (if o.value = p.value then (none : Option (PropertyOp V))
            else some (PropertyOp.update o.id (o.version.number + 1) p)) =
          some (PropertyOp.update o.id (o.version.number + 1) p)
        rw [if_neg hne]
  refine ⟨hiff, ?_⟩
  intro k o n ho hn hveq id version hmem
  obtain ⟨o2, ho2, hn2, hne2, _, _⟩ := (hiff id version n).mp hmem
  have hkey : n.key = k := lookupLast_key _ props k n hn
  rw [hkey] at ho2 hn2
  rw [ho] at ho2
  simp only [Option.some.injEq] at ho2
  exact hne2 (ho2 ▸ hveq)

theorem C8_witness :
    (PropertyOp.update "id1" 3 (⟨"a", 2⟩ : ConfluenceContentProperty Nat) ∈
      update_content_properties_for_page
        ([⟨"a", 1, ⟨2, false⟩, "id1"⟩] : List (ConfluenceIdentifiedContentProperty Nat))
        ([⟨"a", 2⟩] : List (ConfluenceContentProperty Nat)) false) ∧
    (PropertyOp.update "id1" 3 (⟨"a", 1⟩ : ConfluenceContentProperty Nat) ∉
      update_content_properties_for_page
        ([⟨"a", 1, ⟨2, false⟩, "id1"⟩] : List (ConfluenceIdentifiedContentProperty Nat))
        ([⟨"a", 1⟩] : List (ConfluenceContentProperty Nat)) false) :=
  ⟨((C8_property_update_requests
      [⟨"a", 1, ⟨2, false⟩, "id1"⟩] [⟨"a", 2⟩] false).1 "id1" 3 ⟨"a", 2⟩).mpr
      ⟨⟨"a", 1, ⟨2, false⟩, "id1"⟩, by decide, by decide, by decide, rfl, rfl⟩,
   (C8_property_update_requests
      [⟨"a", 1, ⟨2, false⟩, "id1"⟩] [⟨"a", 1⟩] false).2 "a"
      ⟨"a", 1, ⟨2, false⟩, "id1"⟩ ⟨"a", 1⟩ (by decide) (by decide) rfl "id1" 3⟩
